import Mathlib

/-!
Verification development for the embody-ble protocol layer.

The definitions below are shallow embeddings of the Python sources under
`src/embodyble/`: pure Lean functions mirror the branch structure of the
corresponding Python methods, with callback invocations reified as emitted
event values, wall-clock timers reified as armed/disarmed flags, and Python
exceptions reified as `Except`/`Option` error values.  Floating-point
progress percentages are modelled over `ℚ` (the quantities involved are
exact small rationals).  Where a component is exercised by the repository's
tests but its implementation is not present in the source tree, the model is
built from the specification and marked `Modelled from the spec:`.
-/

/- ## File transfer state machine (`src/embodyble/utils.py`, class FileReceiver) -/

/-- Error value passed to the done callback by `FileReceiver`.  The
out-of-order case records the expected offset (`file_position`) and the
actual chunk offset, mirroring the text of the `Exception` built at
utils.py lines 160-164. -/
inductive FRError where
  | outOfOrder (expected actual : Nat)
  deriving DecidableEq

/-- Observable actions of `FileReceiver`: invocations of the done callback,
invocations of the progress callback, and the `GetFile` request sent via
`embody_ble.send` in `get_file`. -/
inductive FREvent where
  | doneCallback (filename : String) (position : Nat) (error : Option FRError)
  | progressCallback (filename : String) (progress : ℚ)
  | sendGetFile (filename : String)
  deriving DecidableEq

/-- Mutable state of a `FileReceiver` (utils.py `__init__`, lines 21-43).
Callbacks and the datastream are modelled by presence flags (the Python
fields are `None` or a value); the two `threading.Timer` handles are
modelled by armed flags; bytes written to the datastream are accumulated in
`datastreamWritten`.  The wall-clock fields `file_t0`/`file_t1`/
`file_datarate` are real-time measurements and are not part of the model. -/
structure FRState where
  filename : String
  file_length : Nat
  file_position : Nat
  receive : Bool
  hasDatastream : Bool
  hasDoneCallback : Bool
  hasProgressCallback : Bool
  chunk_timeout : ℚ
  overall_timeout : Option ℚ
  chunkTimerArmed : Bool
  overallTimerArmed : Bool
  datastreamWritten : List Nat
  deriving DecidableEq

/-- Response messages as seen by `FileReceiver.response_message_received`:
either a `codec.FileDataChunk` (with `fileref`, `offset`, `file_data`) or
any other response message (abstracted by a tag). -/
inductive Msg where
  | fileDataChunk (fileref : Nat) (offset : Nat) (file_data : List Nat)
  | other (tag : Nat)
  deriving DecidableEq

/-- Test whether a message is a `FileDataChunk` (the `isinstance` check at
utils.py line 139). -/
def Msg.isFileDataChunk : Msg → Bool
  | .fileDataChunk _ _ _ => true
  | .other _ => false

/-- Shallow embedding of `FileReceiver.response_message_received`
(utils.py lines 138-200).  Returns the successor state together with the
list of callback invocations, in program order.  Branches mirror the
source: non-chunk messages fall through the `isinstance` check; when
`receive` is false the chunk is ignored; `_reset_chunk_timer` re-arms the
chunk timer; an offset mismatch cancels all timers, invokes the done
callback with an out-of-order error and clears `receive`; otherwise the
data is appended to the datastream (when present), `file_position`
advances, `done` is set when the position reaches or exceeds
`file_length`, the progress callback (when present) is invoked with
`100 * file_position / file_length` (or `0` when `file_length = 0`), and
on completion the timers are cancelled, the done callback (when present)
is invoked with no error and `receive` is cleared. -/
def FileReceiver.response_message_received (st : FRState) (msg : Msg) :
    FRState × List FREvent :=
  match msg with
  | .other _ => (st, [])
  | .fileDataChunk _fileref offset file_data =>
    if st.receive = false then (st, [])
    else
      let st1 := { st with chunkTimerArmed := true }
      if st1.file_position ≠ offset then
        let st2 := { st1 with chunkTimerArmed := false, overallTimerArmed := false }
        let evs := if st2.hasDoneCallback then
            [FREvent.doneCallback st2.filename st2.file_position
              (some (FRError.outOfOrder st2.file_position offset))]
          else []
        ({ st2 with receive := false }, evs)
      else
        let st2 := if st1.hasDatastream then
            { st1 with datastreamWritten := st1.datastreamWritten ++ file_data }
          else st1
        let st3 := { st2 with file_position := st2.file_position + file_data.length }
        let done := decide (st3.file_length < st3.file_position) ||
          decide (st3.file_position = st3.file_length)
        let progressEvs := if st3.hasProgressCallback then
            [FREvent.progressCallback st3.filename
              (if 0 < st3.file_length then
                (100 * (st3.file_position : ℚ)) / (st3.file_length : ℚ)
              else 0)]
          else []
        if done then
          let st4 := { st3 with chunkTimerArmed := false, overallTimerArmed := false }
          let doneEvs := if st4.hasDoneCallback then
              [FREvent.doneCallback st4.filename st4.file_position none]
            else []
          ({ st4 with receive := false }, progressEvs ++ doneEvs)
        else (st3, progressEvs)

/-- Arguments of `FileReceiver.get_file` (utils.py lines 202-213), with the
callback and datastream parameters modelled by presence flags. -/
structure GetFileArgs where
  filename : String
  file_length : Nat
  hasDatastream : Bool
  hasDoneCallback : Bool
  hasProgressCallback : Bool
  chunk_timeout : ℚ
  overall_timeout : Option ℚ
  deriving DecidableEq

/-- Shallow embedding of `FileReceiver.get_file` (utils.py lines 202-230).
When `receive` is already true it returns `-1` at once; otherwise it
initialises the transfer state, arms the chunk timer, arms the overall
timer when an overall timeout is configured, sends the `GetFile` request
and returns `0`. -/
def FileReceiver.get_file (st : FRState) (a : GetFileArgs) :
    Int × FRState × List FREvent :=
  if st.receive = true then (-1, st, [])
  else
    let st1 : FRState := {
      filename := a.filename
      file_length := a.file_length
      file_position := 0
      receive := true
      hasDatastream := a.hasDatastream
      hasDoneCallback := a.hasDoneCallback
      hasProgressCallback := a.hasProgressCallback
      chunk_timeout := a.chunk_timeout
      overall_timeout := a.overall_timeout
      chunkTimerArmed := true
      overallTimerArmed := a.overall_timeout.isSome
      datastreamWritten := [] }
    (0, st1, [FREvent.sendGetFile a.filename])

/-- C9: calling `get_file` while a transfer is already in flight returns the
busy status `-1` immediately, arms no timer, issues no request to the
device, and leaves every field of the in-flight transfer's state unchanged
(the returned state is the input state itself and no event is emitted). -/
theorem C9_get_file_busy (st : FRState) (a : GetFileArgs)
    (hrecv : st.receive = true) :
    FileReceiver.get_file st a = (-1, st, []) := by
  simp [FileReceiver.get_file, hrecv]

theorem C9_get_file_busy_witness :
    FileReceiver.get_file
      { filename := "a.bin", file_length := 100, file_position := 10,
        receive := true, hasDatastream := false, hasDoneCallback := true,
        hasProgressCallback := false, chunk_timeout := 10,
        overall_timeout := none, chunkTimerArmed := true,
        overallTimerArmed := false, datastreamWritten := [1, 2] }
      { filename := "b.bin", file_length := 7, hasDatastream := true,
        hasDoneCallback := false, hasProgressCallback := true,
        chunk_timeout := 5, overall_timeout := some 60 } =
    (-1,
      { filename := "a.bin", file_length := 100, file_position := 10,
        receive := true, hasDatastream := false, hasDoneCallback := true,
        hasProgressCallback := false, chunk_timeout := 10,
        overall_timeout := none, chunkTimerArmed := true,
        overallTimerArmed := false, datastreamWritten := [1, 2] },
      []) :=
  C9_get_file_busy _ _ rfl

/-- C10: a response message that is not a `FileDataChunk` leaves the whole
`FileReceiver` state unchanged (receive flag, file position, filename,
timer flags, datastream contents and all other fields) and invokes no
completion or progress callback, whether or not a transfer is in flight. -/
theorem C10_non_chunk_no_effect (st : FRState) (msg : Msg)
    (h : msg.isFileDataChunk = false) :
    FileReceiver.response_message_received st msg = (st, []) := by
  cases msg with
  | fileDataChunk f o d => simp [Msg.isFileDataChunk] at h
  | other t => rfl

theorem C10_non_chunk_no_effect_witness :
    FileReceiver.response_message_received
      { filename := "a.bin", file_length := 100, file_position := 10,
        receive := true, hasDatastream := true, hasDoneCallback := true,
        hasProgressCallback := true, chunk_timeout := 10,
        overall_timeout := some 60, chunkTimerArmed := true,
        overallTimerArmed := true, datastreamWritten := [5] }
      (Msg.other 42) =
    ({ filename := "a.bin", file_length := 100, file_position := 10,
        receive := true, hasDatastream := true, hasDoneCallback := true,
        hasProgressCallback := true, chunk_timeout := 10,
        overall_timeout := some 60, chunkTimerArmed := true,
        overallTimerArmed := true, datastreamWritten := [5] }, []) :=
  C10_non_chunk_no_effect _ _ rfl

/-- C4: during an active transfer with a registered done callback, a chunk
whose offset differs from the current position cancels both timers,
invokes the done callback exactly once with a non-null error recording the
expected and actual offsets, and marks the session terminated
(`receive := false`); afterwards every subsequent chunk, well-ordered or
not, is ignored without changing state or invoking any callback. -/
theorem C4_out_of_order_terminates (st : FRState) (fr offset : Nat)
    (data : List Nat)
    (hrecv : st.receive = true) (hoff : st.file_position ≠ offset)
    (hcb : st.hasDoneCallback = true) :
    FileReceiver.response_message_received st (.fileDataChunk fr offset data) =
      ({ st with chunkTimerArmed := false, overallTimerArmed := false,
                 receive := false },
       [FREvent.doneCallback st.filename st.file_position
          (some (FRError.outOfOrder st.file_position offset))])
    ∧ ∀ (f2 o2 : Nat) (d2 : List Nat),
      FileReceiver.response_message_received
        { st with chunkTimerArmed := false, overallTimerArmed := false,
                  receive := false }
        (.fileDataChunk f2 o2 d2) =
      ({ st with chunkTimerArmed := false, overallTimerArmed := false,
                 receive := false }, []) := by
  constructor
  · simp [FileReceiver.response_message_received, hrecv, hoff, hcb]
  · intro f2 o2 d2
    simp [FileReceiver.response_message_received]

theorem C4_out_of_order_terminates_witness :
    FileReceiver.response_message_received
      { filename := "test.bin", file_length := 100, file_position := 0,
        receive := true, hasDatastream := false, hasDoneCallback := true,
        hasProgressCallback := false, chunk_timeout := 10,
        overall_timeout := none, chunkTimerArmed := true,
        overallTimerArmed := false, datastreamWritten := [] }
      (.fileDataChunk 1 50 (List.replicate 50 0)) =
    ({ filename := "test.bin", file_length := 100, file_position := 0,
        receive := false, hasDatastream := false, hasDoneCallback := true,
        hasProgressCallback := false, chunk_timeout := 10,
        overall_timeout := none, chunkTimerArmed := false,
        overallTimerArmed := false, datastreamWritten := [] },
     [FREvent.doneCallback "test.bin" 0 (some (FRError.outOfOrder 0 50))])
    ∧ FileReceiver.response_message_received
      { filename := "test.bin", file_length := 100, file_position := 0,
        receive := false, hasDatastream := false, hasDoneCallback := true,
        hasProgressCallback := false, chunk_timeout := 10,
        overall_timeout := none, chunkTimerArmed := false,
        overallTimerArmed := false, datastreamWritten := [] }
      (.fileDataChunk 1 0 (List.replicate 50 0)) =
    ({ filename := "test.bin", file_length := 100, file_position := 0,
        receive := false, hasDatastream := false, hasDoneCallback := true,
        hasProgressCallback := false, chunk_timeout := 10,
        overall_timeout := none, chunkTimerArmed := false,
        overallTimerArmed := false, datastreamWritten := [] }, []) := by
  have h := C4_out_of_order_terminates
    { filename := "test.bin", file_length := 100, file_position := 0,
      receive := true, hasDatastream := false, hasDoneCallback := true,
      hasProgressCallback := false, chunk_timeout := 10,
      overall_timeout := none, chunkTimerArmed := true,
      overallTimerArmed := false, datastreamWritten := [] }
    1 50 (List.replicate 50 0) rfl (by decide) rfl
  exact ⟨h.1, h.2 1 0 (List.replicate 50 0)⟩

/-- Concrete starting state for the C8 counterexample: an active transfer
of expected length 50 with a progress callback registered (the state
produced by `get_file "test.bin" 50` with both callbacks present). -/
def c8State : FRState :=
  { filename := "test.bin", file_length := 50, file_position := 0,
    receive := true, hasDatastream := false, hasDoneCallback := true,
    hasProgressCallback := true, chunk_timeout := 10,
    overall_timeout := none, chunkTimerArmed := true,
    overallTimerArmed := false, datastreamWritten := [] }

/-- C8 counterexample: the progress value is not clamped.  An in-order
chunk of 100 bytes against an expected length of 50 makes the code report
`100 * 100 / 50 = 200` percent, which exceeds 100, refuting the clause
that the reported percentage never exceeds 100 on overshoot. -/
theorem C8_progress_not_clamped_counterexample :
    (FileReceiver.response_message_received c8State
        (.fileDataChunk 1 0 (List.replicate 100 0))).2 =
      [FREvent.progressCallback "test.bin" 200,
       FREvent.doneCallback "test.bin" 100 none]
    ∧ (100 : ℚ) < 200 := by
  constructor
  · simp [FileReceiver.response_message_received, c8State]
    norm_num
  · norm_num

/-- C8 amended: for every in-order chunk processed during an active
transfer with a registered progress callback, the progress callback is
invoked with `100 * running_position / expected_length` computed on the
advanced position, unclamped (it exceeds 100 when the received data
overshoots the expected length), and with `0` when the expected length is
`0`; the progress invocation is the first event emitted. -/
theorem C8_progress_value (st : FRState) (fr : Nat) (data : List Nat)
    (hrecv : st.receive = true) (hpc : st.hasProgressCallback = true) :
    ((FileReceiver.response_message_received st
        (.fileDataChunk fr st.file_position data)).2).head? =
      some (FREvent.progressCallback st.filename
        (if 0 < st.file_length then
          (100 * ((st.file_position + data.length : Nat) : ℚ)) /
            (st.file_length : ℚ)
        else 0)) := by
  simp only [FileReceiver.response_message_received, hrecv, hpc]
  repeat' split
  all_goals simp_all

theorem C8_progress_value_witness :
    ((FileReceiver.response_message_received c8State
        (.fileDataChunk 1 0 (List.replicate 100 0))).2).head? =
      some (FREvent.progressCallback "test.bin"
        (if 0 < (50 : Nat) then
          (100 * ((0 + (List.replicate 100 (0 : Nat)).length : Nat) : ℚ)) / ((50 : Nat) : ℚ)
        else 0)) :=
  C8_progress_value c8State 1 (List.replicate 100 0) rfl rfl

/- ## Correlated sender (`src/embodyble/embodyble.py`, class _MessageSender) -/

/-- Outcome of the transport write `client.write_gatt_char` inside
`send_async`: either it returns, or it raises (any exception, abstracted by
a reason tag). -/
inductive WriteOutcome where
  | ok
  | failure (reason : Nat)
  deriving DecidableEq

/-- Abstract response message identity for the sender model. -/
abbrev SMsg := Nat

/-- Shallow embedding of the transport write call: a failing write is the
`except Exception` path of embodyble.py lines 243-246. -/
def write_gatt_char : WriteOutcome → Except Unit Unit
  | .ok => .ok ()
  | .failure _ => .error ()

/-- Shallow embedding of `asyncio.wait_for(self.__response_event.wait(), timeout)`
(embodyble.py line 249): the environment parameter records whether a
response message is latched by `response_message_received` before the
timeout elapses (`some m`) or not (`none`, the `asyncio.TimeoutError`
path). -/
def event_wait_for : Option SMsg → Except Unit Unit
  | some _ => .ok ()
  | none => .error ()

/-- Shallow embedding of `_MessageSender.send_async` (embodyble.py lines
230-253).  The result is `Except`: an `Except.error` value would mean an
exception escaping to the caller.  The response event and
`__current_response_message` are cleared before the write; a write failure
is caught and reported as `Except.ok none`; a timeout waiting for the
response event is caught and reported as `Except.ok none`; otherwise the
latched response (or `none` when not waiting) is returned. -/
def MessageSender.send_async (write : WriteOutcome) (wait_for_response : Bool)
    (arrival : Option SMsg) : Except Unit (Option SMsg) :=
  let current : Option SMsg := none
  match write_gatt_char write with
  | .error _ => .ok none
  | .ok _ =>
    if wait_for_response then
      match event_wait_for arrival with
      | .error _ => .ok none
      | .ok _ => .ok arrival
    else .ok current

/-- C5: `send_async` never lets an exception reach the caller (its result is
always `Except.ok`); with `wait_for_response = true` and no response
latched within the timeout it returns the absence value `none`; a
transport-write failure likewise returns the absence value `none`. -/
theorem C5_send_async_absence (write : WriteOutcome) (wfr : Bool)
    (arrival : Option SMsg) :
    (∃ r, MessageSender.send_async write wfr arrival = .ok r)
    ∧ (wfr = true → arrival = none →
        MessageSender.send_async write wfr arrival = .ok none)
    ∧ (write ≠ .ok →
        MessageSender.send_async write wfr arrival = .ok none) := by
  refine ⟨?_, ?_, ?_⟩
  · cases write <;> cases wfr <;> cases arrival <;>
      simp [MessageSender.send_async, write_gatt_char, event_wait_for]
  · intro h1 h2
    subst h1; subst h2
    cases write <;> rfl
  · intro h
    cases write with
    | ok => exact absurd rfl h
    | failure r => rfl

theorem C5_send_async_absence_witness :
    MessageSender.send_async WriteOutcome.ok true none = .ok none
    ∧ MessageSender.send_async (WriteOutcome.failure 7) false (some 3) = .ok none :=
  ⟨(C5_send_async_absence WriteOutcome.ok true none).2.1 rfl rfl,
   (C5_send_async_absence (WriteOutcome.failure 7) false (some 3)).2.2 (by decide)⟩

/- ## Attribute dispatcher (`src/embodyble/attrlistener.py`) -/

/-- Python value passed as a callback argument (the attribute fields are
integers and one float, modelled over `ℚ`). -/
inductive PyVal where
  | int (i : Int)
  | rat (q : ℚ)
  deriving DecidableEq

/-- Python exceptions arising during dispatch: a `TypeError` from a call
that does not bind its required parameters, or an arbitrary exception
raised by an observer's callback body. -/
inductive PyErr where
  | typeError
  | observerException
  deriving DecidableEq

/-- A registered high-level observer (`AttributeChangedListener`
instance), identified by `oid`; `raises` records whether its callback
bodies raise when invoked. -/
structure Observer where
  oid : Nat
  raises : Bool
  deriving DecidableEq

/-- Successful callback invocations on an observer. -/
inductive AttrEvent where
  | onBatteryLevelChanged (oid : Nat) (v : Int)
  | onAfeSettingsChanged (oid : Nat) (args : List PyVal)
  deriving DecidableEq

/-- Number of positional parameters (after `self`) of
`AttributeChangedListener.on_afe_settings_changed`
(attrlistener.py lines 100-114): `rf_gain`, `cf_value`, `ecg_gain`,
`ioffdac_range`, `led1`, `led4`, `off_dac1`, `relative_gain`, `led2`,
`led3`, `off_dac2`, `off_dac3`. -/
def afe_callback_param_count : Nat := 12

/-- Number of those parameters that carry a default value in the source:
none do — the trailing four are typed `Optional[int]` but are declared
without defaults. -/
def afe_callback_default_count : Nat := 0

/-- Python positional call to `on_afe_settings_changed`: the call raises
`TypeError` unless the number of supplied positional arguments binds every
parameter without a default and does not exceed the parameter count;
otherwise the observer's body runs (raising iff `o.raises`). -/
def call_on_afe_settings_changed (o : Observer) (args : List PyVal) :
    Except PyErr AttrEvent :=
  if args.length < afe_callback_param_count - afe_callback_default_count then
    .error .typeError
  else if afe_callback_param_count < args.length then .error .typeError
  else if o.raises then .error .observerException
  else .ok (.onAfeSettingsChanged o.oid args)

/-- Python call to `on_battery_level_changed` (one argument, always binds). -/
def call_on_battery_level_changed (o : Observer) (v : Int) :
    Except PyErr AttrEvent :=
  if o.raises then .error .observerException
  else .ok (.onBatteryLevelChanged o.oid v)

/-- The `for listener in self.__message_listeners:` loop of
`AttributeChangedMessageListener.message_received`: observers are invoked
in order with no surrounding `try`, so the first raising call aborts the
loop; the result is the list of successful invocations before the abort
together with the escaping exception, if any. -/
def forEachObserver (f : Observer → Except PyErr AttrEvent) :
    List Observer → List AttrEvent × Option PyErr
  | [] => ([], none)
  | o :: rest =>
    match f o with
    | .error e => ([], some e)
    | .ok ev =>
      let r := forEachObserver f rest
      (ev :: r.1, r.2)

/-- Value carried by an `AttributeChanged` message, covering the branches
of `message_received` relevant here: `BatteryLevelAttribute`,
`AfeSettingsAttribute` (the basic AFE shape, attrlistener.py line 222),
`AfeSettingsAllAttribute` (the all-channels shape, line 234) and an
unrecognised attribute (the trailing `else` at line 250, which only logs). -/
inductive AttrValue where
  | batteryLevel (v : Int)
  | afeSettings (rf_gain cf_value ecg_gain ioffdac_range led1 led4 off_dac : Int)
      (relative_gain : ℚ)
  | afeSettingsAll (rf_gain cf_value ecg_gain ioffdac_range led1 led2 led3 led4
      off_dac1 off_dac2 off_dac3 : Int) (relative_gain : ℚ)
  | unrecognizedAttr
  deriving DecidableEq

/-- Messages seen by the attribute dispatcher: an `AttributeChanged`
message or any other message (line 265, which only logs). -/
inductive AttrMsg where
  | attributeChanged (value : AttrValue)
  | otherMsg
  deriving DecidableEq

/-- Shallow embedding of `AttributeChangedMessageListener.message_received`
(attrlistener.py lines 138-266) on the modelled branches.  For the basic
AFE shape the source passes 8 positional arguments (lines 224-233:
`rf_gain`, `cf_value`, `ecg_gain`, `ioffdac_range`, `led1`, `led4`,
`off_dac`, `relative_gain`); for the all-channels shape it passes 12
(lines 236-249, appending `led2`, `led3`, `off_dac2`, `off_dac3`). -/
def AttributeChangedMessageListener.message_received
    (observers : List Observer) (msg : AttrMsg) :
    List AttrEvent × Option PyErr :=
  match msg with
  | .attributeChanged value =>
    match value with
    | .batteryLevel v =>
      forEachObserver (fun o => call_on_battery_level_changed o v) observers
    | .afeSettings rf cf ecg ior l1 l4 od rg =>
      forEachObserver (fun o => call_on_afe_settings_changed o
        [.int rf, .int cf, .int ecg, .int ior, .int l1, .int l4, .int od,
         .rat rg]) observers
    | .afeSettingsAll rf cf ecg ior l1 l2 l3 l4 od1 od2 od3 rg =>
      forEachObserver (fun o => call_on_afe_settings_changed o
        [.int rf, .int cf, .int ecg, .int ior, .int l1, .int l4, .int od1,
         .rat rg, .int l2, .int l3, .int od2, .int od3]) observers
    | .unrecognizedAttr => ([], none)
  | .otherMsg => ([], none)

/-- Shallow embedding of `_MessageReader.__notify_message_listener`
(embodyble.py lines 331-338): the call into a registered message listener
is wrapped in `try`/`except`, so an escaping exception is converted into a
logged warning (the boolean) and never propagates further. -/
def MessageReader.notify_message_listener
    (r : List AttrEvent × Option PyErr) : List AttrEvent × Bool :=
  (r.1, r.2.isSome)

/-- C6: on an `AttributeChanged` message carrying the basic AFE-settings
shape, the dispatch does not invoke the shared AFE callback on any
observer: the source passes 8 positional arguments to
`on_afe_settings_changed`, whose 12 parameters all lack defaults, so the
call raises `TypeError` and no observer event is produced — whereas the
all-channels shape binds all 12 parameters and the callback is invoked on
the registered observer.  This refutes the claim for the basic shape and
exhibits the code bug. -/
theorem C6_basic_afe_shape_type_error :
    AttributeChangedMessageListener.message_received [⟨0, false⟩]
      (.attributeChanged (.afeSettings 1 2 3 4 5 6 7 8)) =
      ([], some PyErr.typeError)
    ∧ AttributeChangedMessageListener.message_received [⟨0, false⟩]
      (.attributeChanged (.afeSettingsAll 1 2 3 4 5 20 30 6 7 40 50 8)) =
      ([AttrEvent.onAfeSettingsChanged 0
          [.int 1, .int 2, .int 3, .int 4, .int 5, .int 6, .int 7, .rat 8,
           .int 20, .int 30, .int 40, .int 50]], none) := by
  constructor <;> rfl

/-- C7 counterexample: with two registered observers where the first one's
callback raises, dispatching a battery-level attribute change invokes
nothing on the second observer — the exception aborts the dispatcher's
loop instead of being caught per observer, refuting the claimed
per-observer isolation inside the attribute dispatcher. -/
theorem C7_observer_isolation_counterexample :
    AttributeChangedMessageListener.message_received [⟨0, true⟩, ⟨1, false⟩]
      (.attributeChanged (.batteryLevel 50)) = ([], some PyErr.observerException)
    ∧ AttrEvent.onBatteryLevelChanged 1 50 ∉
      (AttributeChangedMessageListener.message_received [⟨0, true⟩, ⟨1, false⟩]
        (.attributeChanged (.batteryLevel 50))).1 := by
  constructor
  · rfl
  · intro h
    simp [AttributeChangedMessageListener.message_received,
      forEachObserver, call_on_battery_level_changed] at h

/-- C7 amended: an exception raised by one observer's callback aborts
dispatch of that event to all remaining registered observers of the
attribute dispatcher (no later observer is invoked); the exception is
caught one level up, by the message reader's per-listener notify wrapper,
so it is logged and does not escape the dispatch call. -/
theorem C7_observer_exception_aborts_loop (o : Observer)
    (rest : List Observer) (v : Int) (h : o.raises = true) :
    AttributeChangedMessageListener.message_received (o :: rest)
      (.attributeChanged (.batteryLevel v)) = ([], some PyErr.observerException)
    ∧ MessageReader.notify_message_listener
        (AttributeChangedMessageListener.message_received (o :: rest)
          (.attributeChanged (.batteryLevel v))) = ([], true) := by
  have h1 : AttributeChangedMessageListener.message_received (o :: rest)
      (.attributeChanged (.batteryLevel v)) = ([], some PyErr.observerException) := by
    simp [AttributeChangedMessageListener.message_received, forEachObserver,
      call_on_battery_level_changed, h]
  exact ⟨h1, by rw [h1]; rfl⟩

theorem C7_observer_exception_aborts_loop_witness :
    AttributeChangedMessageListener.message_received [⟨0, true⟩, ⟨1, false⟩]
      (.attributeChanged (.batteryLevel 7)) = ([], some PyErr.observerException)
    ∧ MessageReader.notify_message_listener
        (AttributeChangedMessageListener.message_received [⟨0, true⟩, ⟨1, false⟩]
          (.attributeChanged (.batteryLevel 7))) = ([], true) :=
  C7_observer_exception_aborts_loop ⟨0, true⟩ [⟨1, false⟩] 7 rfl

/- ## Stream framer

The carry-over framer is exercised by `tests/test_message_reader.py`
(`saved_data`, `MAX_SAVED_DATA_SIZE`, `get_corruption_counters`,
`add_error_listener`) and its error taxonomy is declared in
`src/embodyble/listeners.py` (`BleErrorType`), but the implementation those
tests drive is not present in the source tree (the `_MessageReader` in
`src/embodyble/embodyble.py` is an earlier snapshot without a carry-over
buffer).  The framer is therefore modelled from the specification, §4.1. -/

/-- Error classifications of `BleErrorType`
(src/embodyble/listeners.py lines 20-27). -/
inductive BleErrorType where
  | crcError
  | resync
  | unknownMessage
  | bufferOverflow
  deriving DecidableEq

/-- Monotonic corruption counters exposed by `get_corruption_counters`. -/
structure CorruptionCounters where
  crc_errors : Nat
  resync_events : Nat
  unknown_message_types : Nat
  buffer_overflows : Nat
  deriving DecidableEq

/-- Bump the resync counter. -/
def bumpResync (c : CorruptionCounters) : CorruptionCounters :=
  { c with resync_events := c.resync_events + 1 }

/-- Bump the unknown-message-type counter. -/
def bumpUnknown (c : CorruptionCounters) : CorruptionCounters :=
  { c with unknown_message_types := c.unknown_message_types + 1 }

/-- Bump the buffer-overflow counter. -/
def bumpOverflow (c : CorruptionCounters) : CorruptionCounters :=
  { c with buffer_overflows := c.buffer_overflows + 1 }

/-- Modelled from the spec: result of the codec collaborator's
`decode(bytes)` (spec §6) — a decoded message with the number of bytes it
consumed, a distinguishable incomplete signal when there are not yet
enough bytes, a distinguishable unrecognised signal for an unknown message
type, and an unparseable header. -/
inductive DecodeResult (M : Type) where
  | ok (m : M) (consumed : Nat)
  | incomplete
  | unknownType
  | malformedHeader
  deriving DecidableEq

/-- A codec front end: bytes (as naturals) to a decode result. -/
abbrev Decoder (M : Type) := List Nat → DecodeResult M

/-- Observable framer actions: a listener dispatch of a decoded message,
or an error-listener notification with its classification. -/
inductive FramerEvent (M : Type) where
  | dispatch (m : M)
  | errorEvent (t : BleErrorType)
  deriving DecidableEq

/-- Result of one pass of the framer's decode loop. -/
structure ProcResult (M : Type) where
  events : List (FramerEvent M)
  carry : List Nat
  counters : CorruptionCounters
  deriving DecidableEq

/-- Modelled from the spec: the decode loop of the framer's `feed`
(spec §4.1; the implementation behind
`tests/test_message_reader.py` is missing from the source tree).  On
success the message is dispatched and the cursor advances by the consumed
length; on insufficient bytes the loop stops and the remaining bytes
become the carry-over; on an unknown message type or an unparseable
header the cursor advances by exactly one byte, the error listeners are
notified with the `unknown_message` / `resync` classification, the
corresponding corruption counter is incremented, and decoding retries
from the new cursor.  The fuel argument (instantiated with the buffer
length, which bounds the number of loop iterations since every step
consumes at least one byte) makes the recursion structural. -/
def processBuffer {M : Type} (dec : Decoder M) :
    Nat → List Nat → CorruptionCounters → ProcResult M
  | 0, buf, c => ⟨[], buf, c⟩
  | fuel + 1, buf, c =>
    match dec buf with
    | .ok m consumed =>
      let r := processBuffer dec fuel (buf.drop consumed) c
      ⟨.dispatch m :: r.events, r.carry, r.counters⟩
    | .incomplete => ⟨[], buf, c⟩
    | .unknownType =>
      let r := processBuffer dec fuel (buf.drop 1) (bumpUnknown c)
      ⟨.errorEvent .unknownMessage :: r.events, r.carry, r.counters⟩
    | .malformedHeader =>
      let r := processBuffer dec fuel (buf.drop 1) (bumpResync c)
      ⟨.errorEvent .resync :: r.events, r.carry, r.counters⟩

/-- Framer state: the carry-over buffer (`saved_data`) and the corruption
counters. -/
structure FramerState where
  saved_data : List Nat
  counters : CorruptionCounters
  deriving DecidableEq

/-- Modelled from the spec: `feed(chunk)` (spec §4.1).  The chunk is
appended to the carry-over buffer; if the combined buffer exceeds the
maximum saved-data size the entire carry-over is dropped, the error
listeners are notified with the `buffer_overflow` classification and its
counter is incremented; otherwise the decode loop runs and the unconsumed
tail is retained as the new carry-over. -/
def Framer.feed {M : Type} (dec : Decoder M) (maxSavedDataSize : Nat)
    (st : FramerState) (chunk : List Nat) :
    FramerState × List (FramerEvent M) :=
  let buf := st.saved_data ++ chunk
  if maxSavedDataSize < buf.length then
    (⟨[], bumpOverflow st.counters⟩, [.errorEvent .bufferOverflow])
  else
    let r := processBuffer dec buf.length buf st.counters
    (⟨r.carry, r.counters⟩, r.events)

/-- C1: for every message whose encoding decodes as one frame consuming its
full length, with every strict prefix signalled as incomplete, feeding the
first `k` bytes (`1 ≤ k <` full length) to the framer with an empty
carry-over dispatches nothing and leaves a non-empty carry-over of exactly
those `k` bytes; feeding the remaining bytes afterwards dispatches exactly
that one message and leaves an empty carry-over. -/
theorem C1_two_fragment_reassembly {M : Type} (dec : Decoder M)
    (maxSavedDataSize : Nat) (enc : List Nat) (m : M) (k : Nat)
    (c0 : CorruptionCounters)
    (hmax : enc.length ≤ maxSavedDataSize)
    (hk1 : 1 ≤ k) (hk2 : k < enc.length)
    (hpre : ∀ j, j < enc.length → dec (enc.take j) = DecodeResult.incomplete)
    (hdec : dec enc = DecodeResult.ok m enc.length) :
    Framer.feed dec maxSavedDataSize ⟨[], c0⟩ (enc.take k) =
      (⟨enc.take k, c0⟩, [])
    ∧ enc.take k ≠ [] ∧ (enc.take k).length = k
    ∧ Framer.feed dec maxSavedDataSize ⟨enc.take k, c0⟩ (enc.drop k) =
      (⟨[], c0⟩, [FramerEvent.dispatch m]) := by
  have hkle : k ≤ enc.length := le_of_lt hk2
  have htklen : (enc.take k).length = k := by
    simp [List.length_take, Nat.min_eq_left hkle]
  have htkne : enc.take k ≠ [] := by
    intro h
    rw [h] at htklen
    simp at htklen
    omega
  have hinc : dec (enc.take k) = DecodeResult.incomplete := hpre k hk2
  have hempty : dec [] = DecodeResult.incomplete := by
    have h0 := hpre 0 (by omega)
    simpa using h0
  refine ⟨?_, htkne, htklen, ?_⟩
  · obtain ⟨k0, rfl⟩ : ∃ k0, k = k0 + 1 := ⟨k - 1, by omega⟩
    simp only [Framer.feed, List.nil_append]
    rw [if_neg (by omega)]
    rw [htklen]
    simp only [processBuffer, hinc]
  · simp only [Framer.feed, List.take_append_drop]
    rw [if_neg (by omega)]
    obtain ⟨n, hn⟩ : ∃ n, enc.length = n + 2 := ⟨enc.length - 2, by omega⟩
    rw [hn]
    simp only [processBuffer, hdec, ← hn, List.drop_length]
    simp [hempty]

/-- Toy length-prefixed codec used to witness the framer theorems: a frame
is `L :: payload` with total length `L ≥ 2`; shorter buffers are
incomplete, a length byte below 2 is an unparseable header. -/
def toyDecode : Decoder (List Nat) := fun buf =>
  match buf with
  | [] => .incomplete
  | L :: _ =>
    if L < 2 then .malformedHeader
    else if buf.length < L then .incomplete
    else .ok (buf.take L) L

theorem C1_two_fragment_reassembly_witness :
    Framer.feed toyDecode 8 ⟨[], ⟨0, 0, 0, 0⟩⟩ (([3, 7, 9] : List Nat).take 2) =
      (⟨([3, 7, 9] : List Nat).take 2, ⟨0, 0, 0, 0⟩⟩, [])
    ∧ ([3, 7, 9] : List Nat).take 2 ≠ []
    ∧ (([3, 7, 9] : List Nat).take 2).length = 2
    ∧ Framer.feed toyDecode 8 ⟨([3, 7, 9] : List Nat).take 2, ⟨0, 0, 0, 0⟩⟩
        (([3, 7, 9] : List Nat).drop 2) =
      (⟨[], ⟨0, 0, 0, 0⟩⟩, [FramerEvent.dispatch [3, 7, 9]]) :=
  C1_two_fragment_reassembly toyDecode 8 [3, 7, 9] [3, 7, 9] 2 ⟨0, 0, 0, 0⟩
    (by decide) (by decide) (by decide) (by decide) (by decide)

/-- C3: when the framer's decode loop meets an unknown message type or an
unparseable header, it emits exactly one error notification with the
`unknown_message` (resp. `resync`) classification, increments the
corresponding corruption counter, advances the cursor by exactly one byte
and retries decoding there, so the events, final carry-over and final
counters are those of processing the buffer with its first byte dropped —
in particular later valid messages in the same chunk are still dispatched,
and the loop, being a total function, never raises out of `feed`. -/
theorem C3_resync_single_byte {M : Type} (dec : Decoder M) (fuel : Nat)
    (buf : List Nat) (c : CorruptionCounters) :
    (dec buf = DecodeResult.unknownType →
      processBuffer dec (fuel + 1) buf c =
        ⟨FramerEvent.errorEvent BleErrorType.unknownMessage ::
            (processBuffer dec fuel (buf.drop 1) (bumpUnknown c)).events,
          (processBuffer dec fuel (buf.drop 1) (bumpUnknown c)).carry,
          (processBuffer dec fuel (buf.drop 1) (bumpUnknown c)).counters⟩
      ∧ (bumpUnknown c).unknown_message_types = c.unknown_message_types + 1)
    ∧ (dec buf = DecodeResult.malformedHeader →
      processBuffer dec (fuel + 1) buf c =
        ⟨FramerEvent.errorEvent BleErrorType.resync ::
            (processBuffer dec fuel (buf.drop 1) (bumpResync c)).events,
          (processBuffer dec fuel (buf.drop 1) (bumpResync c)).carry,
          (processBuffer dec fuel (buf.drop 1) (bumpResync c)).counters⟩
      ∧ (bumpResync c).resync_events = c.resync_events + 1) := by
  constructor
  · intro hu
    exact ⟨by simp only [processBuffer, hu], rfl⟩
  · intro hm
    exact ⟨by simp only [processBuffer, hm], rfl⟩

/-- Toy codec returning an unknown-type signal for type bytes of 100 or
more, used to witness the unknown-message half of the C3 theorem. -/
def toyDecodeU : Decoder (List Nat) := fun buf =>
  match buf with
  | [] => .incomplete
  | t :: _ => if 100 ≤ t then .unknownType else toyDecode buf

theorem C3_resync_single_byte_witness :
    (processBuffer toyDecodeU 1 [200, 9] ⟨0, 0, 0, 0⟩ =
      ⟨FramerEvent.errorEvent BleErrorType.unknownMessage ::
          (processBuffer toyDecodeU 0 (([200, 9] : List Nat).drop 1)
            (bumpUnknown ⟨0, 0, 0, 0⟩)).events,
        (processBuffer toyDecodeU 0 (([200, 9] : List Nat).drop 1)
          (bumpUnknown ⟨0, 0, 0, 0⟩)).carry,
        (processBuffer toyDecodeU 0 (([200, 9] : List Nat).drop 1)
          (bumpUnknown ⟨0, 0, 0, 0⟩)).counters⟩
      ∧ (bumpUnknown ⟨0, 0, 0, 0⟩).unknown_message_types = 0 + 1)
    ∧ (processBuffer toyDecode 1 [1, 9] ⟨0, 0, 0, 0⟩ =
      ⟨FramerEvent.errorEvent BleErrorType.resync ::
          (processBuffer toyDecode 0 (([1, 9] : List Nat).drop 1)
            (bumpResync ⟨0, 0, 0, 0⟩)).events,
        (processBuffer toyDecode 0 (([1, 9] : List Nat).drop 1)
          (bumpResync ⟨0, 0, 0, 0⟩)).carry,
        (processBuffer toyDecode 0 (([1, 9] : List Nat).drop 1)
          (bumpResync ⟨0, 0, 0, 0⟩)).counters⟩
      ∧ (bumpResync ⟨0, 0, 0, 0⟩).resync_events = 0 + 1) :=
  ⟨(C3_resync_single_byte toyDecodeU 0 [200, 9] ⟨0, 0, 0, 0⟩).1 (by decide),
   (C3_resync_single_byte toyDecode 0 [1, 9] ⟨0, 0, 0, 0⟩).2 (by decide)⟩

/- ## Exactly-once completion for the file transfer

The guarded invoke-once operation is exercised by `tests/test_utils.py`
(`_invoke_done_callback`, `_callback_invoked`), but the `FileReceiver` in
`src/embodyble/utils.py` is an earlier snapshot without it.  The guarded
operation is therefore modelled from the specification, §4.3/§9: every
completion path (final chunk arrival, chunk timeout, overall timeout)
funnels through one critical section, guarded by a single mutex, that
checks the terminated flag, sets it, and invokes the completion callback
as one atomic unit.  Because the mutex serialises the critical sections,
any truly concurrent execution of the completion paths is equivalent to
running the guarded operation once per path in some sequential order, so
interleavings are modelled as arbitrary orderings of atomic triggers. -/

/-- Session lifecycle states of a transfer (spec §9: idle is before
`get_file`; the completion guard only distinguishes active from
terminated). -/
inductive SessionStatus where
  | active
  | terminated
  deriving DecidableEq

/-- A transfer session as seen by the completion guard: its status and the
number of completion-callback invocations performed so far. -/
structure TransferSession where
  status : SessionStatus
  callback_count : Nat
  deriving DecidableEq

/-- The concurrent sources that can try to complete a transfer
(spec §4.3): a final legitimate chunk arrival, the inter-chunk timeout
firing, and the overall timeout firing. -/
inductive CompletionTrigger where
  | chunkCompletes
  | chunkTimeout
  | overallTimeout
  deriving DecidableEq

/-- Modelled from the spec: the guarded invoke-once operation
(`_invoke_done_callback` in `tests/test_utils.py`; its implementation is
missing from the source tree).  One critical section: if the session is
already terminated the call is a silent no-op; otherwise it transitions
the session to terminated and invokes the completion callback, atomically. -/
def invoke_done_callback (s : TransferSession) : TransferSession :=
  match s.status with
  | .terminated => s
  | .active => ⟨.terminated, s.callback_count + 1⟩

/-- Run a serialised sequence of completion attempts, one guarded critical
section per trigger. -/
def runCompletions (s : TransferSession) (ts : List CompletionTrigger) :
    TransferSession :=
  ts.foldl (fun acc _ => invoke_done_callback acc) s

/-- Once terminated, any further completion attempts leave the session
unchanged. -/
theorem runCompletions_terminated (ts : List CompletionTrigger)
    (s : TransferSession) (h : s.status = .terminated) :
    runCompletions s ts = s := by
  induction ts with
  | nil => rfl
  | cons t ts ih =>
    have hstep : invoke_done_callback s = s := by
      unfold invoke_done_callback
      rw [h]
    simpa [runCompletions, hstep] using ih

/-- C2: when a chunk timeout (or overall timeout) races with a legitimate
chunk arrival that completes the transfer, the completion callback is
invoked exactly once — never zero times, never twice: for every nonempty
serialisation of the competing completion triggers (the single mutex makes
every concurrent execution equivalent to one of these), starting from an
active session with no invocation yet, the first trigger transitions the
session to terminated and performs the callback, every later trigger is a
silent no-op, and any further triggers after the run change nothing. -/
theorem C2_completion_exactly_once (ts : List CompletionTrigger)
    (hne : ts ≠ []) :
    (runCompletions ⟨.active, 0⟩ ts).callback_count = 1
    ∧ (runCompletions ⟨.active, 0⟩ ts).status = .terminated
    ∧ ∀ more : List CompletionTrigger,
        runCompletions (runCompletions ⟨.active, 0⟩ ts) more =
          runCompletions ⟨.active, 0⟩ ts := by
  obtain ⟨t, ts0, rfl⟩ : ∃ t ts0, ts = t :: ts0 := by
    cases ts with
    | nil => exact absurd rfl hne
    | cons t ts0 => exact ⟨t, ts0, rfl⟩
  have hrun : runCompletions ⟨.active, 0⟩ (t :: ts0) =
      (⟨.terminated, 1⟩ : TransferSession) := by
    show runCompletions (invoke_done_callback ⟨.active, 0⟩) ts0 = _
    exact runCompletions_terminated ts0 ⟨.terminated, 1⟩ rfl
  refine ⟨by rw [hrun], by rw [hrun], ?_⟩
  intro more
  rw [hrun]
  exact runCompletions_terminated more ⟨.terminated, 1⟩ rfl

theorem C2_completion_exactly_once_witness :
    (runCompletions ⟨.active, 0⟩
        [CompletionTrigger.chunkTimeout,
         CompletionTrigger.chunkCompletes]).callback_count = 1
    ∧ (runCompletions ⟨.active, 0⟩
        [CompletionTrigger.chunkTimeout,
         CompletionTrigger.chunkCompletes]).status = .terminated
    ∧ ∀ more : List CompletionTrigger,
        runCompletions (runCompletions ⟨.active, 0⟩
          [CompletionTrigger.chunkTimeout,
           CompletionTrigger.chunkCompletes]) more =
        runCompletions ⟨.active, 0⟩
          [CompletionTrigger.chunkTimeout,
           CompletionTrigger.chunkCompletes] :=
  C2_completion_exactly_once
    [CompletionTrigger.chunkTimeout, CompletionTrigger.chunkCompletes]
    (by decide)
